import Mathlib

/- The library marks the `Rat` field operations irreducible, which blocks
`decide`-style evaluation of concrete states; restoring semireducibility is
purely an elaboration-transparency change (the kernel is unaffected) and lets
witnesses and counterexamples below evaluate the model on concrete inputs. -/
set_option allowUnsafeReducibility true
attribute [local semireducible] Rat.add Rat.mul Rat.sub Rat.inv Rat.ofScientific

/-!
Verification of the TwitchNoSub DVR core (segment timeline tracker and
live/VOD arbitration controller).

The definitions below are a shallow embedding of `src/dvr/dvr-tracker.js`
and `src/dvr/dvr-controller.js`.  JavaScript numbers are modelled as `ℚ`
(with `Option ℚ` where a field can be `null` or a computation can yield
`NaN`), wall-clock reads (`Date.now()`) are passed explicitly as `now`
parameters (one per call site), and DOM / network effects are modelled as
explicit environment records and returned action values.
-/

/-- JS truthiness for a number-or-null field: `null` and `0` are falsy. -/
def qFalsy : Option ℚ → Bool
  | none => true
  | some x => x == 0

/-- Numeric value of a number-or-null field as used in JS arithmetic
(`null` coerces to `0`). -/
def qVal : Option ℚ → ℚ
  | none => 0
  | some x => x

/-- JS `v || d` for a number that may be `undefined`/`NaN` (`none`) or `0`. -/
def jsOr (v : Option ℚ) (d : ℚ) : ℚ :=
  match v with
  | none => d
  | some x => if x = 0 then d else x

/-- JS `v || d` for an integer that may be `undefined` (`none`) or `0`. -/
def jsOrInt (v : Option Int) (d : Int) : Int :=
  match v with
  | none => d
  | some x => if x = 0 then d else x

/-- JS `v || d` for a string that may be `undefined` (`none`) or empty. -/
def jsOrStr (v : Option String) (d : String) : String :=
  match v with
  | none => d
  | some s => if s == "" then d else s

/-- JS truthiness for a string-or-null field: `null` and `""` are falsy. -/
def strFalsy : Option String → Bool
  | none => true
  | some s => s == ""

/-- One tracked HLS segment (the object built in `DVRTracker.addSegment`). -/
structure Segment where
  url : String
  timestamp : ℚ
  duration : ℚ
  sequence : Int
  quality : String
deriving DecidableEq

/-- The `segmentInfo` argument of `addSegment`; optional fields model
`undefined` (or `NaN` for `duration`). -/
structure SegmentInfo where
  url : String
  duration : Option ℚ := none
  sequence : Option Int := none
  quality : Option String := none

/-- State of `DVRTracker` (fields of the JS class constructor; the event
listener registry is pure side effect and is omitted). -/
structure DVRTracker where
  maxBufferDuration : ℚ := 4 * 60 * 60 * 1000
  segmentDuration : ℚ := 2000
  isLive : Bool := false
  channelName : Option String := none
  streamStartTime : Option ℚ := none
  segments : List Segment := []
  currentSegmentIndex : Int := -1
  isEnabled : Bool := true
  earliestAvailableTime : Option ℚ := none
  latestAvailableTime : Option ℚ := none

/-- Model of `DVRTracker.reset`. -/
def DVRTracker.reset (t : DVRTracker) : DVRTracker :=
  { t with
    segments := []
    currentSegmentIndex := -1
    streamStartTime := none
    earliestAvailableTime := none
    latestAvailableTime := none
    channelName := none
    isLive := false }

/-- Model of `DVRTracker.startTracking` (`now` is the `Date.now()` read). -/
def DVRTracker.startTracking (t : DVRTracker) (channelName : String) (now : ℚ) :
    DVRTracker :=
  let t := t.reset
  { t with
    isLive := true
    channelName := some channelName
    streamStartTime := some now
    earliestAvailableTime := some now
    latestAvailableTime := some now }

/-- Model of `DVRTracker.stopTracking` (only emits an event and flips `isLive`). -/
def DVRTracker.stopTracking (t : DVRTracker) : DVRTracker :=
  { t with isLive := false }

/-- Model of `DVRTracker.cleanupOldSegments` (`now` is its `Date.now()` read). -/
def DVRTracker.cleanupOldSegments (t : DVRTracker) (now : ℚ) : DVRTracker :=
  let cutoffTime := now - t.maxBufferDuration
  let segments := t.segments.filter (fun seg => cutoffTime < seg.timestamp)
  let t := { t with segments := segments }
  match segments with
  | [] => t
  | seg0 :: _ => { t with earliestAvailableTime := some seg0.timestamp }

/-- Model of `DVRTracker.addSegment`.  `now` is the `Date.now()` read that stamps the
segment; `nowCleanup` is the separate `Date.now()` read inside the
`cleanupOldSegments` call it performs. -/
def DVRTracker.addSegment (t : DVRTracker) (si : SegmentInfo) (now nowCleanup : ℚ) :
    DVRTracker :=
  if !t.isLive || !t.isEnabled then t
  else
    let seg : Segment :=
      { url := si.url
        timestamp := now
        duration := jsOr si.duration t.segmentDuration
        sequence := jsOrInt si.sequence (t.segments.length : Int)
        quality := jsOrStr si.quality ("source") }
    let t := { t with
      segments := t.segments ++ [seg]
      latestAvailableTime := some (seg.timestamp + seg.duration) }
    t.cleanupOldSegments nowCleanup

/-- Model of `DVRTracker.getBufferDuration`. -/
def DVRTracker.getBufferDuration (t : DVRTracker) : ℚ :=
  if qFalsy t.earliestAvailableTime || qFalsy t.latestAvailableTime then 0
  else qVal t.latestAvailableTime - qVal t.earliestAvailableTime

/-- Model of `DVRTracker.canSeekBack`. -/
def DVRTracker.canSeekBack (t : DVRTracker) : Bool :=
  decide (1 < t.segments.length) && decide (5000 < t.getBufferDuration)

/-- Model of `DVRTracker.getPositionPercentage`. -/
def DVRTracker.getPositionPercentage (t : DVRTracker) (currentTimestamp : ℚ) : ℚ :=
  let duration := t.getBufferDuration
  if duration = 0 then 100
  else
    let position := currentTimestamp - qVal t.earliestAvailableTime
    min 100 (max 0 (position / duration * 100))

/-- Model of `DVRTracker.getTimestampFromPercentage`. -/
def DVRTracker.getTimestampFromPercentage (t : DVRTracker) (percentage : ℚ) : ℚ :=
  qVal t.earliestAvailableTime + t.getBufferDuration * percentage / 100

/-!
`DVRTracker.processPlaylist` parses manifest text.  String operations are
implemented structurally over `List Char` (JS `split`, `trim`, `startsWith`,
`endsWith`, `includes`, and the two regular expressions
`/#EXTINF:([\d.]+)/` and `/#EXT-X-MEDIA-SEQUENCE:(\d+)/` with `parseFloat`
and `parseInt` on the captured group).
-/

/-- JS `playlistContent.split('\n')`. -/
def splitOnNewline : List Char → List (List Char)
  | [] => [[]]
  | c :: rest =>
    let r := splitOnNewline rest
    if c == '\n' then [] :: r
    else
      match r with
      | [] => [[c]]
      | h :: t => (c :: h) :: t

/-- JS `String.prototype.trim` (strip leading and trailing whitespace). -/
def jsTrim (cs : List Char) : List Char :=
  ((cs.dropWhile Char.isWhitespace).reverse.dropWhile Char.isWhitespace).reverse

/-- Does `cs` contain `pat` as a contiguous substring (JS `includes`)? -/
def hasSub (pat : List Char) : List Char → Bool
  | [] => pat.isEmpty
  | c :: rest => pat.isPrefixOf (c :: rest) || hasSub pat rest

/-- A character matched by the regex class `[\d.]`. -/
def digitOrDot (c : Char) : Bool := c.isDigit || c == '.'

/-- Value of a digit string (JS `parseInt` on a `\d+` capture). -/
def digitsToNat (cs : List Char) : ℕ :=
  cs.foldl (fun n c => 10 * n + (c.toNat - 48)) 0

/-- JS `parseFloat` applied to a captured `[\d.]+` token: an integer part,
an optional dot and fraction part, anything after a second dot ignored;
`none` models `NaN` (dots only). -/
def jsParseFloatDigits (cs : List Char) : Option ℚ :=
  let intPart := cs.takeWhile Char.isDigit
  let rest := cs.drop intPart.length
  let fracPart :=
    match rest with
    | '.' :: r => r.takeWhile Char.isDigit
    | _ => []
  if intPart.isEmpty && fracPart.isEmpty then none
  else some ((digitsToNat intPart : ℚ) + (digitsToNat fracPart : ℚ) / 10 ^ fracPart.length)

/-- First-match semantics of `s.match(/pat(ok+)/)`: scan left to right for an
occurrence of the literal `pat` followed by at least one `ok` character and
return the maximal capture. -/
def findCapture (pat : List Char) (ok : Char → Bool) : List Char → Option (List Char)
  | [] => none
  | c :: rest =>
    if pat.isPrefixOf (c :: rest) then
      let cap := ((c :: rest).drop pat.length).takeWhile ok
      if cap.isEmpty then findCapture pat ok rest
      else some cap
    else findCapture pat ok rest

/-- The literal `#EXTINF:`. -/
def extinfMarker : List Char := ("#EXTINF:").data

/-- The literal `#EXT-X-MEDIA-SEQUENCE:`. -/
def mediaSeqMarker : List Char := ("#EXT-X-MEDIA-SEQUENCE:").data

/-- Condition of the segment-URL branch of the playlist loop:
`line && !line.startsWith('#') && (line.endsWith('.ts') || line.includes('.ts?'))`. -/
def isSegmentLine (line : List Char) : Bool :=
  !line.isEmpty && !(("#").data.isPrefixOf line) &&
    ((".ts").data.isSuffixOf line || hasSub ((".ts?").data) line)

/-- Model of `line.startsWith('http') ? line : new URL(line, baseUrl).href`; URL
resolution against the base URL is the host function `resolve`. -/
def resolveSegmentUrl (resolve : String → String) (line : List Char) : String :=
  if ("http").data.isPrefixOf line then ⟨line⟩ else resolve ⟨line⟩

/-- One iteration of the `processPlaylist` line loop.  The accumulator is
`(currentDuration, sequence, tracker)`; `currentDuration = none` models
`NaN`. -/
def processLine (resolve : String → String) (now : ℚ)
    (acc : Option ℚ × Int × DVRTracker) (rawLine : List Char) :
    Option ℚ × Int × DVRTracker :=
  let (currentDuration, sequence, t) := acc
  let line := jsTrim rawLine
  if extinfMarker.isPrefixOf line then
    match findCapture extinfMarker digitOrDot line with
    | some cap => ((jsParseFloatDigits cap).map (· * 1000), sequence, t)
    | none => (currentDuration, sequence, t)
  else if isSegmentLine line then
    let segmentUrl := resolveSegmentUrl resolve line
    let t :=
      if (t.segments.find? (fun s => s.url == segmentUrl)).isSome then t
      else
        t.addSegment
          { url := segmentUrl
            duration := some (jsOr currentDuration t.segmentDuration)
            sequence := some sequence }
          now now
    (currentDuration, sequence + 1, t)
  else (currentDuration, sequence, t)

/-- Model of `DVRTracker.processPlaylist`.  `resolve` stands for
`line => new URL(line, baseUrl).href`; `now` is the wall-clock instant of
this poll (each `Date.now()` read during the loop). -/
def DVRTracker.processPlaylist (t : DVRTracker) (playlistContent : String)
    (resolve : String → String) (now : ℚ) : DVRTracker :=
  if !t.isLive || !t.isEnabled then t
  else
    let sequence : Int :=
      match findCapture mediaSeqMarker Char.isDigit playlistContent.data with
      | some cap => (digitsToNat cap : Int)
      | none => 0
    let lines := splitOnNewline playlistContent.data
    (lines.foldl (processLine resolve now) ((some 0 : Option ℚ), sequence, t)).2.2

/-!
Embedding of the `DVRController` logic from `dvr-controller.js`.  The native
video element is a value (`buffered` time ranges plus `currentTime`), DOM and
Twitch-Embed availability are an explicit environment, and the imperative
branches return their effect as an action value next to the updated state.
-/

/-- The native `<video>` element as read by `getBufferInfo`. -/
structure VideoState where
  buffered : List (ℚ × ℚ)
  currentTime : ℚ

/-- Result record of `DVRController.getBufferInfo`. -/
structure BufferInfo where
  start : ℚ
  finish : ℚ
  duration : ℚ
  currentTime : ℚ
  behindLive : ℚ
  positionPercent : ℚ

/-- Model of `DVRController.getBufferInfo` (`finish` is the JS field `end`). -/
def getBufferInfo (playerElement : Option VideoState) : BufferInfo :=
  match playerElement with
  | none =>
    { start := 0, finish := 0, duration := 0, currentTime := 0
      behindLive := 0, positionPercent := 100 }
  | some video =>
    let bufferStart := match video.buffered with | [] => 0 | r :: _ => r.1
    let bufferEnd := match video.buffered.getLast? with | none => 0 | some r => r.2
    let currentTime := video.currentTime
    let bufferDuration := bufferEnd - bufferStart
    let behindLive := max 0 (bufferEnd - currentTime)
    { start := bufferStart
      finish := bufferEnd
      duration := bufferDuration
      currentTime := currentTime
      behindLive := behindLive
      positionPercent :=
        if 0 < bufferDuration then (currentTime - bufferStart) / bufferDuration * 100
        else 100 }

/-- Model of `DVRController.getElapsedTime` in seconds (`now` is the `Date.now()`
read; `streamStartTime` is falsy when `null` or `0`). -/
def getElapsedTime (streamStartTime : Option ℚ) (now : ℚ) : ℚ :=
  if qFalsy streamStartTime then 0
  else (⌊(now - qVal streamStartTime) / 1000⌋ : ℤ)

/-- Which branch of `DVRController.handleSeek` fires (the effect each branch
performs on the players). -/
inductive SeekAction where
  | goLive
  | bufferSeek (targetTime : ℚ)
  | switchToVod (vodPositionSeconds : ℚ)
deriving DecidableEq

/-- Model of `DVRController.handleSeek`: decide between the go-live branch, a seek
within the native buffer, and the VOD-overlay switch. -/
def handleSeek (streamStartTime : Option ℚ) (playerElement : Option VideoState)
    (now positionPercent : ℚ) : SeekAction :=
  let elapsed := getElapsedTime streamStartTime now
  let bufferInfo := getBufferInfo playerElement
  let targetSecondsFromStart := elapsed * positionPercent / 100
  let secondsBehindLive := elapsed - targetSecondsFromStart
  if 98 ≤ positionPercent ∨ secondsBehindLive < 5 then .goLive
  else if secondsBehindLive ≤ bufferInfo.duration then
    .bufferSeek (bufferInfo.finish - secondsBehindLive)
  else .switchToVod targetSecondsFromStart

/-- The mutable `DVRController` fields touched by the VOD-overlay lifecycle
(`vodPlayer` is an opaque handle identity; `vodOverlay` is whether the overlay
container element exists; `playerExists`/`playerMuted` model
`this.playerElement` presence and its `muted` flag). -/
structure ControllerState where
  currentChannel : Option String := none
  currentVodId : Option String := none
  lastVodId : Option String := none
  vodPlayer : Option ℕ := none
  vodOverlay : Bool := false
  vodEmbedLoaded : Bool := false
  isWatchingVod : Bool := false
  playerExists : Bool := false
  playerMuted : Bool := false
deriving DecidableEq

/-- External conditions read during a VOD switch: whether `window.Twitch.Embed`
is loaded, whether the embed container and player container elements are in
the DOM, whether the `Twitch.Embed` constructor succeeds (`embedCtorOk`), the
fresh handle it would produce, and the VOD id (if any) a
`checkStreamInfo` fetch would return. -/
structure VodEnv where
  embedApiLoaded : Bool
  embedContainerExists : Bool
  embedCtorOk : Bool
  freshPlayer : ℕ
  fetchedVodId : Option String
  playerContainerExists : Bool

/-- Observable effect of `switchToVod`/`initVodEmbed`. -/
inductive VodAction where
  | seekExisting (player : ℕ) (startTime : ℚ)
  | createdEmbed (player : ℕ) (vodId : String)
  | createdIframe (vodId : String) (startTime : ℚ)
  | noContainer
  | vodUnavailable
deriving DecidableEq

/-- Model of `DVRController.refreshVodInfo`: fetch the current VOD id for the channel
and store it when the fetch yields one (truthy). -/
def refreshVodInfo (env : VodEnv) (st : ControllerState) : ControllerState :=
  if strFalsy st.currentChannel then st
  else
    match env.fetchedVodId with
    | some v => if v == "" then st else { st with currentVodId := some v }
    | none => st

/-- Model of `DVRController.createVodOverlay`: no-op when the overlay already exists or
the player container is missing. -/
def createVodOverlay (env : VodEnv) (st : ControllerState) : ControllerState :=
  if st.vodOverlay then st
  else if env.playerContainerExists then { st with vodOverlay := true }
  else st

/-- Model of `DVRController.createVodIframe` (fallback embed): rebinds `lastVodId` and
creates a fresh iframe; it does not set `vodPlayer`. -/
def createVodIframe (env : VodEnv) (st : ControllerState) (vodId : String)
    (startTime : ℚ) : ControllerState × VodAction :=
  if !env.embedContainerExists then (st, .noContainer)
  else
    ({ st with lastVodId := some vodId, vodEmbedLoaded := true },
     .createdIframe vodId startTime)

/-- The creation path of `initVodEmbed` (taken when the reuse guard fails). -/
def initVodEmbedCreate (env : VodEnv) (st : ControllerState) (vodId : String)
    (startTime : ℚ) : ControllerState × VodAction :=
  if !env.embedApiLoaded then createVodIframe env st vodId startTime
  else if !env.embedContainerExists then (st, .noContainer)
  else
    let st := { st with lastVodId := some vodId }
    if env.embedCtorOk then
      ({ st with vodPlayer := some env.freshPlayer },
       .createdEmbed env.freshPlayer vodId)
    else
      -- `new Twitch.Embed` threw before the assignment: `vodPlayer` keeps its
      -- old value and the iframe fallback runs.
      createVodIframe env st vodId startTime

/-- Model of `DVRController.initVodEmbed`: reuse the existing player (pure seek) when
it exists and `lastVodId` matches, otherwise create. -/
def initVodEmbed (env : VodEnv) (st : ControllerState) (vodId : String)
    (startTime : ℚ) : ControllerState × VodAction :=
  match st.vodPlayer with
  | some p =>
    if st.lastVodId = some vodId then (st, .seekExisting p startTime)
    else initVodEmbedCreate env st vodId startTime
  | none => initVodEmbedCreate env st vodId startTime

/-- Model of `DVRController.switchToVod`: resolve the VOD id (one refresh attempt when
unset), bail out with a user notice when still unset, otherwise show the
overlay and initialize or reuse the embedded player. -/
def switchToVod (env : VodEnv) (st : ControllerState) (vodPositionSeconds : ℚ) :
    ControllerState × VodAction :=
  let st := if strFalsy st.currentVodId then refreshVodInfo env st else st
  if strFalsy st.currentVodId then (st, .vodUnavailable)
  else
    let vodId := st.currentVodId.getD ("")
    let adjustedPosition := max 0 (vodPositionSeconds - 5)
    let st := createVodOverlay env st
    let r := initVodEmbed env st vodId adjustedPosition
    let st := r.1
    let st :=
      if st.vodOverlay then
        { st with
          isWatchingVod := true
          playerMuted := st.playerMuted || st.playerExists }
      else st
    (st, r.2)

/-! Helper lemmas about `cleanupOldSegments` and `addSegment`. -/

theorem cleanupOldSegments_segments (t : DVRTracker) (now : ℚ) :
    (t.cleanupOldSegments now).segments
      = t.segments.filter (fun seg => now - t.maxBufferDuration < seg.timestamp) := by
  simp only [DVRTracker.cleanupOldSegments]
  split <;> simp_all

theorem cleanupOldSegments_latest (t : DVRTracker) (now : ℚ) :
    (t.cleanupOldSegments now).latestAvailableTime = t.latestAvailableTime := by
  simp only [DVRTracker.cleanupOldSegments]
  split <;> rfl

theorem cleanupOldSegments_earliest (t : DVRTracker) (now : ℚ) :
    (t.cleanupOldSegments now).earliestAvailableTime
      = (((t.cleanupOldSegments now).segments.head?).map
          (fun s => some s.timestamp)).getD t.earliestAvailableTime := by
  rw [cleanupOldSegments_segments]
  simp only [DVRTracker.cleanupOldSegments]
  split
  · next heq => simp [heq]
  · next seg0 rest heq => simp [heq]

theorem cleanupOldSegments_misc (t : DVRTracker) (now : ℚ) :
    (t.cleanupOldSegments now).isLive = t.isLive ∧
    (t.cleanupOldSegments now).isEnabled = t.isEnabled ∧
    (t.cleanupOldSegments now).maxBufferDuration = t.maxBufferDuration ∧
    (t.cleanupOldSegments now).segmentDuration = t.segmentDuration := by
  simp only [DVRTracker.cleanupOldSegments]
  split <;> simp_all

theorem addSegment_eq (t : DVRTracker) (si : SegmentInfo) (now now2 : ℚ)
    (hl : t.isLive = true) (he : t.isEnabled = true) :
    t.addSegment si now now2 =
      DVRTracker.cleanupOldSegments
        { t with
          segments := t.segments ++
            [{ url := si.url
               timestamp := now
               duration := jsOr si.duration t.segmentDuration
               sequence := jsOrInt si.sequence (t.segments.length : Int)
               quality := jsOrStr si.quality ("source") }]
          latestAvailableTime := some (now + jsOr si.duration t.segmentDuration) }
        now2 := by
  unfold DVRTracker.addSegment
  rw [hl, he]
  rfl

/-! Concrete fixtures used by counterexamples and witnesses. -/

/-- A live tracker holding one segment discovered at t = 5 ms. -/
def evictTracker : DVRTracker :=
  { isLive := true
    channelName := some ("somechannel")
    streamStartTime := some 5
    segments := [{ url := "http://x/a.ts", timestamp := 5, duration := 2000,
                   sequence := 0, quality := "source" }]
    earliestAvailableTime := some 5
    latestAvailableTime := some 2005 }

/-- A fresh segment's info record. -/
def lateSegment : SegmentInfo := { url := "http://x/b.ts" }

/-- A tracker whose available window is `[100, 300]` ms. -/
def mapTracker : DVRTracker :=
  { earliestAvailableTime := some 100
    latestAvailableTime := some 300 }

/-- A native video element buffering `[0, 80]` s with the playhead at 80 s. -/
def liveVideo : VideoState := { buffered := [(0, 80)], currentTime := 80 }

/-- C10: for every tracker state and eviction outcome, `cleanupOldSegments`
never modifies `latestAvailableTime`; `earliestAvailableTime` is recomputed
from the oldest survivor when one exists and is left unchanged otherwise. -/
theorem cleanup_latest_frame (t : DVRTracker) (now : ℚ) :
    (t.cleanupOldSegments now).latestAvailableTime = t.latestAvailableTime ∧
    (t.cleanupOldSegments now).earliestAvailableTime
      = (((t.cleanupOldSegments now).segments.head?).map
          (fun s => some s.timestamp)).getD t.earliestAvailableTime :=
  ⟨cleanupOldSegments_latest t now, cleanupOldSegments_earliest t now⟩

/-- C7 counterexample: `stopTracking` on a live tracker with one segment
leaves the segment list, both bounds and the session start time in place,
refuting the claim that it clears the timeline aggregate. -/
theorem stopTracking_leaves_data_cex :
    (evictTracker.stopTracking).segments ≠ [] ∧
    (evictTracker.stopTracking).earliestAvailableTime = some 5 ∧
    (evictTracker.stopTracking).latestAvailableTime = some 2005 ∧
    (evictTracker.stopTracking).streamStartTime = some 5 := by
  decide

/-- C7 (amended): `stopTracking` only flips `isLive` to false and preserves
the segment list, the bounds and the session start; clearing happens through
`reset`, which `startTracking` performs when a new session begins. -/
theorem stopTracking_only_stops (t : DVRTracker) (c : String) (now : ℚ) :
    (t.stopTracking).isLive = false ∧
    (t.stopTracking).segments = t.segments ∧
    (t.stopTracking).earliestAvailableTime = t.earliestAvailableTime ∧
    (t.stopTracking).latestAvailableTime = t.latestAvailableTime ∧
    (t.stopTracking).streamStartTime = t.streamStartTime ∧
    (t.startTracking c now).segments = [] ∧
    (t.reset).segments = [] ∧
    (t.reset).earliestAvailableTime = none ∧
    (t.reset).latestAvailableTime = none ∧
    (t.reset).streamStartTime = none := by
  simp [DVRTracker.stopTracking, DVRTracker.startTracking, DVRTracker.reset]

/-- C6 counterexample: an insert at `now = 10` whose cleanup clock reads
`now = 14400020` evicts every retained segment (including the new one), yet
both derived bounds remain set (`earliest = 5`, `latest = 2010`) instead of
being unset. -/
theorem addSegment_total_eviction_cex :
    (evictTracker.addSegment lateSegment 10 14400020).segments = [] ∧
    (evictTracker.addSegment lateSegment 10 14400020).earliestAvailableTime
      = some 5 ∧
    (evictTracker.addSegment lateSegment 10 14400020).latestAvailableTime
      = some 2010 := by
  decide

/-- C6 (amended): after an insert, `latestAvailable` is the just-inserted
segment's end; when the eviction pass leaves survivors, `earliestAvailable`
is recomputed from the new oldest survivor, and when it removes every
segment the bounds are left at their previous values, not unset. -/
theorem addSegment_bounds (t : DVRTracker) (si : SegmentInfo) (now now2 : ℚ)
    (hl : t.isLive = true) (he : t.isEnabled = true) :
    (t.addSegment si now now2).latestAvailableTime
        = some (now + jsOr si.duration t.segmentDuration) ∧
    (t.addSegment si now now2).earliestAvailableTime
        = (((t.addSegment si now now2).segments.head?).map
            (fun s => some s.timestamp)).getD t.earliestAvailableTime := by
  rw [addSegment_eq t si now now2 hl he]
  constructor
  · rw [cleanupOldSegments_latest]
  · rw [cleanupOldSegments_earliest]

/-- C6 witness: the amended bound behaviour evaluated on the concrete
full-eviction insert. -/
theorem addSegment_bounds_witness :
    (evictTracker.addSegment lateSegment 10 14400020).latestAvailableTime
        = some (10 + jsOr lateSegment.duration evictTracker.segmentDuration) ∧
    (evictTracker.addSegment lateSegment 10 14400020).earliestAvailableTime
        = (((evictTracker.addSegment lateSegment 10 14400020).segments.head?).map
            (fun s => some s.timestamp)).getD evictTracker.earliestAvailableTime :=
  addSegment_bounds evictTracker lateSegment 10 14400020 rfl rfl

/-- C5: for any timestamp inside the available window, mapping to a
percentage and back is the identity (exactly, hence within mapping
resolution). -/
theorem timestamp_percentage_roundtrip (t : DVRTracker) (ts : ℚ)
    (h1 : qVal t.earliestAvailableTime ≤ ts)
    (h2 : ts ≤ qVal t.latestAvailableTime)
    (hd : 0 < t.getBufferDuration) :
    t.getTimestampFromPercentage (t.getPositionPercentage ts) = ts := by
  have hne : t.getBufferDuration ≠ 0 := ne_of_gt hd
  have hcond : ¬((qFalsy t.earliestAvailableTime
      || qFalsy t.latestAvailableTime) = true) := by
    intro hc
    have h0 : t.getBufferDuration = 0 := by
      unfold DVRTracker.getBufferDuration
      rw [if_pos hc]
    exact hne h0
  have hdur : t.getBufferDuration
      = qVal t.latestAvailableTime - qVal t.earliestAvailableTime := by
    unfold DVRTracker.getBufferDuration
    rw [if_neg hcond]
  have hnn : 0 ≤ (ts - qVal t.earliestAvailableTime) / t.getBufferDuration * 100 :=
    mul_nonneg (div_nonneg (sub_nonneg.mpr h1) (le_of_lt hd)) (by norm_num)
  have hub : (ts - qVal t.earliestAvailableTime) / t.getBufferDuration * 100 ≤ 100 := by
    have hsub : ts - qVal t.earliestAvailableTime ≤ t.getBufferDuration := by
      rw [hdur]; linarith
    have hdiv : (ts - qVal t.earliestAvailableTime) / t.getBufferDuration ≤ 1 :=
      (div_le_one hd).mpr hsub
    nlinarith [hdiv]
  simp only [DVRTracker.getPositionPercentage, DVRTracker.getTimestampFromPercentage]
  rw [if_neg hne, max_eq_right hnn, min_eq_right hub]
  field_simp

/-- C5 witness: the round trip at `ts = 150` inside the window `[100, 300]`. -/
theorem timestamp_percentage_roundtrip_witness :
    mapTracker.getTimestampFromPercentage (mapTracker.getPositionPercentage 150)
      = 150 :=
  timestamp_percentage_roundtrip mapTracker 150 (by decide) (by decide) (by decide)

/-- C2: a seek with `pct < 98`, at least 5 s behind live and beyond the
native buffer span selects the Recorded (VOD) path. -/
theorem handleSeek_selects_vod (streamStartTime : Option ℚ)
    (playerElement : Option VideoState) (now pct : ℚ)
    (h1 : pct < 98)
    (h2 : 5 ≤ getElapsedTime streamStartTime now
            - getElapsedTime streamStartTime now * pct / 100)
    (h3 : (getBufferInfo playerElement).duration
            < getElapsedTime streamStartTime now
              - getElapsedTime streamStartTime now * pct / 100) :
    handleSeek streamStartTime playerElement now pct
      = SeekAction.switchToVod (getElapsedTime streamStartTime now * pct / 100) := by
  have hA : ¬(98 ≤ pct ∨ getElapsedTime streamStartTime now
      - getElapsedTime streamStartTime now * pct / 100 < 5) := by
    rintro (h | h)
    · exact absurd h (not_le.mpr h1)
    · exact absurd h (not_lt.mpr h2)
  have hB : ¬(getElapsedTime streamStartTime now
      - getElapsedTime streamStartTime now * pct / 100
        ≤ (getBufferInfo playerElement).duration) := not_le.mpr h3
  simp only [handleSeek]
  rw [if_neg hA, if_neg hB]

/-- C2 witness: `E = 3600 s`, `B = 80 s`, `requestSeek(50)` (behind = 1800 s)
resolves to the Recorded path. -/
theorem handleSeek_selects_vod_witness :
    handleSeek (some 1000) (some liveVideo) 3601000 50
      = SeekAction.switchToVod 1800 := by
  have h := handleSeek_selects_vod (some 1000) (some liveVideo) 3601000 50
    (by norm_num) (by decide) (by decide)
  rw [h]
  decide

/-- C3: a seek with `pct ≥ 98` or less than 5 s behind live resolves to the
go-live branch (no buffer-seek computation, no Recorded switch). -/
theorem handleSeek_goLive (streamStartTime : Option ℚ)
    (playerElement : Option VideoState) (now pct : ℚ)
    (h : 98 ≤ pct ∨ getElapsedTime streamStartTime now
            - getElapsedTime streamStartTime now * pct / 100 < 5) :
    handleSeek streamStartTime playerElement now pct = SeekAction.goLive := by
  simp only [handleSeek]
  rw [if_pos h]

/-- C3 witness: `requestSeek(99)` resolves to go-live. -/
theorem handleSeek_goLive_witness :
    handleSeek (some 1000) (some liveVideo) 3601000 99 = SeekAction.goLive :=
  handleSeek_goLive (some 1000) (some liveVideo) 3601000 99 (Or.inl (by norm_num))

/-! Helper lemmas about the VOD switch paths. -/

theorem createVodOverlay_fields (env : VodEnv) (st : ControllerState) :
    (createVodOverlay env st).currentVodId = st.currentVodId ∧
    (createVodOverlay env st).lastVodId = st.lastVodId ∧
    (createVodOverlay env st).vodPlayer = st.vodPlayer := by
  unfold createVodOverlay
  split
  · exact ⟨rfl, rfl, rfl⟩
  · split <;> exact ⟨rfl, rfl, rfl⟩

theorem switchToVod_creates (env : VodEnv) (st : ControllerState) (pos : ℚ)
    (R : String)
    (hvid : st.currentVodId = some R) (hR : (R == "") = false)
    (hp : st.vodPlayer = none)
    (hapi : env.embedApiLoaded = true) (hcont : env.embedContainerExists = true)
    (hctor : env.embedCtorOk = true) :
    (switchToVod env st pos).2 = VodAction.createdEmbed env.freshPlayer R ∧
    (switchToVod env st pos).1.vodPlayer = some env.freshPlayer ∧
    (switchToVod env st pos).1.lastVodId = some R ∧
    (switchToVod env st pos).1.currentVodId = some R := by
  obtain ⟨ho1, ho2, ho3⟩ := createVodOverlay_fields env st
  have hfalsy : strFalsy st.currentVodId = false := by
    rw [hvid]; simp [strFalsy, hR]
  simp only [switchToVod, initVodEmbed, initVodEmbedCreate, createVodIframe,
    hfalsy, Bool.false_eq_true, if_false]
  rw [ho3, hp]
  simp only [hapi, hcont, hctor, Bool.not_true, Bool.false_eq_true, if_false,
    if_true, ite_true, ite_false]
  refine ⟨by simp [hvid], ?_, ?_, ?_⟩ <;> · split <;> simp [hvid, ho1]

theorem switchToVod_reuses (env : VodEnv) (st : ControllerState) (pos : ℚ)
    (R : String) (p : ℕ)
    (hvid : st.currentVodId = some R) (hR : (R == "") = false)
    (hp : st.vodPlayer = some p) (hlast : st.lastVodId = some R) :
    (switchToVod env st pos).2 = VodAction.seekExisting p (max 0 (pos - 5)) ∧
    (switchToVod env st pos).1.vodPlayer = some p := by
  obtain ⟨ho1, ho2, ho3⟩ := createVodOverlay_fields env st
  have hfalsy : strFalsy st.currentVodId = false := by
    rw [hvid]; simp [strFalsy, hR]
  simp only [switchToVod, initVodEmbed, hfalsy, Bool.false_eq_true, if_false]
  rw [ho3, hp, ho2, hlast, hvid]
  simp only [Option.getD_some, eq_self_iff_true, if_true]
  constructor
  · trivial
  · split <;> simp [ho3, hp]

/-- Controller state at the first out-of-buffer seek: recording id resolved,
no secondary player yet. -/
def firstSeekState : ControllerState :=
  { currentChannel := some ("somechannel")
    currentVodId := some ("123456789") }

/-- Environment in which the Twitch Embed API and the DOM containers are
available and embed construction succeeds. -/
def embedEnv : VodEnv :=
  { embedApiLoaded := true
    embedContainerExists := true
    embedCtorOk := true
    freshPlayer := 7
    fetchedVodId := none
    playerContainerExists := true }

/-- Controller state with no recording id resolved. -/
def noVodState : ControllerState := { currentChannel := some ("somechannel") }

/-- C4: across two consecutive out-of-buffer seeks resolving to the same
recording id, the secondary handle created by the first `switchToVod` is
reused by the second: the second invokes a pure seek on the existing handle
and keeps it, instead of creating a new embed. -/
theorem vod_player_reused_same_recording (env env2 : VodEnv)
    (st : ControllerState) (R : String) (p1 p2 : ℚ)
    (hR : (R == "") = false)
    (hvid : st.currentVodId = some R)
    (hp : st.vodPlayer = none)
    (hapi : env.embedApiLoaded = true)
    (hcont : env.embedContainerExists = true)
    (hctor : env.embedCtorOk = true) :
    (switchToVod env st p1).2 = VodAction.createdEmbed env.freshPlayer R ∧
    (switchToVod env2 (switchToVod env st p1).1 p2).2
      = VodAction.seekExisting env.freshPlayer (max 0 (p2 - 5)) ∧
    (switchToVod env2 (switchToVod env st p1).1 p2).1.vodPlayer
      = some env.freshPlayer := by
  obtain ⟨ha, hplayer, hlast, hcur⟩ :=
    switchToVod_creates env st p1 R hvid hR hp hapi hcont hctor
  obtain ⟨ha2, hkeep⟩ :=
    switchToVod_reuses env2 ((switchToVod env st p1).1) p2 R env.freshPlayer
      hcur hR hplayer hlast
  exact ⟨ha, ha2, hkeep⟩

/-- C4 witness: the create-then-reuse pair of seeks on concrete state. -/
theorem vod_player_reused_same_recording_witness :
    (switchToVod embedEnv firstSeekState 1800).2
      = VodAction.createdEmbed embedEnv.freshPlayer ("123456789") ∧
    (switchToVod embedEnv (switchToVod embedEnv firstSeekState 1800).1 2000).2
      = VodAction.seekExisting embedEnv.freshPlayer (max 0 (2000 - 5)) ∧
    (switchToVod embedEnv (switchToVod embedEnv firstSeekState 1800).1 2000).1.vodPlayer
      = some embedEnv.freshPlayer :=
  vod_player_reused_same_recording embedEnv embedEnv firstSeekState
    ("123456789") 1800 2000 rfl rfl rfl rfl rfl rfl

/-- C8: an out-of-buffer seek with no recording id resolved, even after the
extra resolution attempt, surfaces the unavailable notice and leaves the
controller state exactly unchanged (no source switch, no embed creation). -/
theorem switchToVod_unavailable_no_transition (env : VodEnv)
    (st : ControllerState) (pos : ℚ)
    (h1 : st.currentVodId = none) (h2 : env.fetchedVodId = none) :
    switchToVod env st pos = (st, VodAction.vodUnavailable) := by
  have hr : refreshVodInfo env st = st := by
    unfold refreshVodInfo
    rw [h2]
    split <;> rfl
  simp [switchToVod, hr, h1, strFalsy]

/-- C8 witness: the failed seek on concrete state returns the state
unchanged together with the notice. -/
theorem switchToVod_unavailable_no_transition_witness :
    switchToVod embedEnv noVodState 1234 = (noVodState, VodAction.vodUnavailable) :=
  switchToVod_unavailable_no_transition embedEnv noVodState 1234 rfl rfl

/-! Per-step lemmas for the playlist-ingest inductions. -/

theorem addSegment_nodup (t : DVRTracker) (si : SegmentInfo) (now now2 : ℚ)
    (h : (t.segments.map Segment.url).Nodup)
    (hu : si.url ∉ t.segments.map Segment.url) :
    ((t.addSegment si now now2).segments.map Segment.url).Nodup := by
  by_cases hg : (!t.isLive || !t.isEnabled) = true
  · have heq : t.addSegment si now now2 = t := by
      unfold DVRTracker.addSegment
      rw [if_pos hg]
    rw [heq]
    exact h
  · have hl : t.isLive = true := by
      revert hg; cases t.isLive <;> simp
    have he : t.isEnabled = true := by
      revert hg; cases t.isEnabled <;> simp
    rw [addSegment_eq t si now now2 hl he, cleanupOldSegments_segments]
    apply List.Nodup.sublist ((List.filter_sublist _).map _)
    rw [List.map_append]
    rw [List.nodup_append]
    refine ⟨h, by simp, ?_⟩
    intro u humem hmem2
    simp only [List.map_cons, List.map_nil, List.mem_singleton] at hmem2
    subst hmem2
    exact hu humem

theorem processLine_nodup (resolve : String → String) (now : ℚ)
    (acc : Option ℚ × Int × DVRTracker) (line : List Char)
    (h : (acc.2.2.segments.map Segment.url).Nodup) :
    (((processLine resolve now acc line).2.2).segments.map Segment.url).Nodup := by
  obtain ⟨cd, seq, t⟩ := acc
  simp only [processLine]
  split
  · split <;> exact h
  · split
    · split
      · exact h
      · next hfind =>
        apply addSegment_nodup _ _ _ _ h
        intro hmem
        apply hfind
        rw [List.mem_map] at hmem
        obtain ⟨s, hs, hurl⟩ := hmem
        rw [Option.isSome_iff_exists]
        cases hfq : t.segments.find? (fun s => s.url == resolveSegmentUrl resolve (jsTrim line)) with
        | some s2 => exact ⟨s2, rfl⟩
        | none =>
          exfalso
          have := List.find?_eq_none.mp hfq s hs
          simp only [beq_iff_eq] at this
          exact this hurl
    · exact h

theorem foldl_processLine_nodup (resolve : String → String) (now : ℚ) :
    ∀ (lines : List (List Char)) (acc : Option ℚ × Int × DVRTracker),
      (acc.2.2.segments.map Segment.url).Nodup →
      (((lines.foldl (processLine resolve now) acc).2.2).segments.map
          Segment.url).Nodup := by
  intro lines
  induction lines with
  | nil => intro acc h; exact h
  | cons l rest ih =>
    intro acc h
    exact ih (processLine resolve now acc l) (processLine_nodup resolve now acc l h)

/-- A live tracker with empty timeline, as `startTracking` leaves it. -/
def demoTracker : DVRTracker :=
  { isLive := true
    channelName := some ("somechannel")
    streamStartTime := some 1000
    earliestAvailableTime := some 1000
    latestAvailableTime := some 1000 }

/-- A manifest that repeats one media URL before a second one. -/
def dupManifest : String :=
  "#EXTINF:2.0,\nhttp://x/a.ts\n#EXTINF:2.0,\nhttp://x/a.ts\n#EXTINF:2.0,\nhttp://x/b.ts"

/-- C1 counterexample: a direct `addSegment` call with an already-present
url is not a no-op — it appends a duplicate, so the retained segments no
longer have pairwise-distinct urls. -/
theorem addSegment_duplicate_url_cex :
    ((evictTracker.addSegment { url := "http://x/a.ts" } 6 7).segments.map
        Segment.url)
      = ["http://x/a.ts", "http://x/a.ts"] ∧
    ¬ (((evictTracker.addSegment { url := "http://x/a.ts" } 6 7).segments.map
        Segment.url).Nodup) := by
  decide

/-- C1 (amended): the duplicate check lives in `processPlaylist`, not in
`addSegment`; for every sequence of inserts that go through
`processPlaylist`, pairwise-distinct urls are preserved. -/
theorem processPlaylist_preserves_url_nodup (t : DVRTracker) (content : String)
    (resolve : String → String) (now : ℚ)
    (h : (t.segments.map Segment.url).Nodup) :
    (((t.processPlaylist content resolve now).segments.map Segment.url)).Nodup := by
  unfold DVRTracker.processPlaylist
  split
  · exact h
  · exact foldl_processLine_nodup resolve now _ _ h

/-- C1 witness: ingesting a manifest with a repeated media URL keeps the
urls pairwise distinct. -/
theorem processPlaylist_preserves_url_nodup_witness :
    (((demoTracker.processPlaylist dupManifest id 2000).segments.map
        Segment.url)).Nodup :=
  processPlaylist_preserves_url_nodup demoTracker dupManifest id 2000 (by decide)

/-- All retained segments are younger than the retention window relative to
`now` (no eviction pending). -/
def freshSegments (now : ℚ) (t : DVRTracker) : Prop :=
  ∀ s ∈ t.segments, now - t.maxBufferDuration < s.timestamp

theorem addSegment_misc (t : DVRTracker) (si : SegmentInfo) (now now2 : ℚ) :
    (t.addSegment si now now2).isLive = t.isLive ∧
    (t.addSegment si now now2).isEnabled = t.isEnabled ∧
    (t.addSegment si now now2).maxBufferDuration = t.maxBufferDuration ∧
    (t.addSegment si now now2).segmentDuration = t.segmentDuration := by
  unfold DVRTracker.addSegment
  split
  · exact ⟨rfl, rfl, rfl, rfl⟩
  · exact cleanupOldSegments_misc _ _

theorem addSegment_fresh_segments (t : DVRTracker) (si : SegmentInfo) (now : ℚ)
    (hl : t.isLive = true) (he : t.isEnabled = true)
    (hm : 0 < t.maxBufferDuration) (hf : freshSegments now t) :
    (t.addSegment si now now).segments
      = t.segments ++
        [{ url := si.url
           timestamp := now
           duration := jsOr si.duration t.segmentDuration
           sequence := jsOrInt si.sequence (t.segments.length : Int)
           quality := jsOrStr si.quality ("source") }] := by
  rw [addSegment_eq t si now now hl he, cleanupOldSegments_segments]
  apply List.filter_eq_self.mpr
  intro s hs
  rcases List.mem_append.mp hs with hs1 | hs2
  · exact decide_eq_true (hf s hs1)
  · simp only [List.mem_singleton] at hs2
    subst hs2
    exact decide_eq_true (sub_lt_self now hm)

theorem prefix_hash_of_prefix_extinf (l : List Char)
    (h : extinfMarker.isPrefixOf l = true) :
    (("#").data).isPrefixOf l = true := by
  cases l with
  | nil => exact absurd h (by decide)
  | cons c rest =>
    have e1 : extinfMarker.isPrefixOf (c :: rest)
        = (('#' == c) && (("EXTINF:").data.isPrefixOf rest)) := rfl
    rw [e1, Bool.and_eq_true] at h
    have e2 : (("#").data).isPrefixOf (c :: rest)
        = (('#' == c) && ([] : List Char).isPrefixOf rest) := rfl
    have e3 : ([] : List Char).isPrefixOf rest = true := by
      cases rest <;> rfl
    rw [e2, e3, h.1, Bool.true_and]

theorem processLine_step (resolve : String → String) (now : ℚ)
    (acc : Option ℚ × Int × DVRTracker) (line : List Char)
    (hl : acc.2.2.isLive = true) (he : acc.2.2.isEnabled = true)
    (hm : 0 < acc.2.2.maxBufferDuration) (hf : freshSegments now acc.2.2) :
    ((processLine resolve now acc line).2.2.isLive = true ∧
     (processLine resolve now acc line).2.2.isEnabled = true ∧
     0 < (processLine resolve now acc line).2.2.maxBufferDuration ∧
     freshSegments now (processLine resolve now acc line).2.2) ∧
    (∀ u, u ∈ acc.2.2.segments.map Segment.url →
        u ∈ (processLine resolve now acc line).2.2.segments.map Segment.url) ∧
    (isSegmentLine (jsTrim line) = true →
        resolveSegmentUrl resolve (jsTrim line)
          ∈ (processLine resolve now acc line).2.2.segments.map Segment.url) := by
  obtain ⟨cd, seq, t⟩ := acc
  simp only at hl he hm hf
  simp only [processLine]
  split
  · next hext =>
    split
    all_goals
      refine ⟨⟨hl, he, hm, hf⟩, fun u hu => hu, fun hseg => ?_⟩
      have hhash := prefix_hash_of_prefix_extinf _ hext
      simp [isSegmentLine, hhash] at hseg
  · split
    · next hseg2 =>
      split
      · next hfound =>
        refine ⟨⟨hl, he, hm, hf⟩, fun u hu => hu, fun _ => ?_⟩
        rw [Option.isSome_iff_exists] at hfound
        obtain ⟨s, hs⟩ := hfound
        have hmem := List.mem_of_find?_eq_some hs
        have hp := List.find?_some hs
        simp only [beq_iff_eq] at hp
        rw [List.mem_map]
        exact ⟨s, hmem, hp⟩
      · next hnotfound =>
        have hseq := addSegment_fresh_segments t
          ⟨resolveSegmentUrl resolve (jsTrim line),
           some (jsOr cd t.segmentDuration), some seq, none⟩ now hl he hm hf
        have hmisc := addSegment_misc t
          ⟨resolveSegmentUrl resolve (jsTrim line),
           some (jsOr cd t.segmentDuration), some seq, none⟩ now now
        refine ⟨⟨?_, ?_, ?_, ?_⟩, ?_, ?_⟩
        · rw [hmisc.1]; exact hl
        · rw [hmisc.2.1]; exact he
        · rw [hmisc.2.2.1]; exact hm
        · intro s hs
          rw [hmisc.2.2.1]
          rw [hseq] at hs
          rcases List.mem_append.mp hs with hs1 | hs2
          · exact hf s hs1
          · simp only [List.mem_singleton] at hs2
            subst hs2
            exact sub_lt_self now hm
        · intro u hu
          rw [hseq, List.map_append]
          exact List.mem_append_left _ hu
        · intro _
          rw [hseq, List.map_append]
          apply List.mem_append_right
          simp
    · next hnot =>
      exact ⟨⟨hl, he, hm, hf⟩, fun u hu => hu,
        fun hseg => absurd hseg hnot⟩

theorem foldl_processLine_inserts (resolve : String → String) (now : ℚ) :
    ∀ (lines : List (List Char)) (acc : Option ℚ × Int × DVRTracker),
      acc.2.2.isLive = true → acc.2.2.isEnabled = true →
      0 < acc.2.2.maxBufferDuration → freshSegments now acc.2.2 →
      (∀ u, u ∈ acc.2.2.segments.map Segment.url →
        u ∈ ((lines.foldl (processLine resolve now) acc).2.2.segments.map
              Segment.url)) ∧
      (∀ line ∈ lines, isSegmentLine (jsTrim line) = true →
        resolveSegmentUrl resolve (jsTrim line)
          ∈ ((lines.foldl (processLine resolve now) acc).2.2.segments.map
              Segment.url)) := by
  intro lines
  induction lines with
  | nil =>
    intro acc hl he hm hf
    exact ⟨fun u hu => hu, fun line hline => absurd hline (List.not_mem_nil _)⟩
  | cons l rest ih =>
    intro acc hl he hm hf
    obtain ⟨⟨hl2, he2, hm2, hf2⟩, hmono, hline⟩ :=
      processLine_step resolve now acc l hl he hm hf
    obtain ⟨ihmono, ihline⟩ := ih (processLine resolve now acc l) hl2 he2 hm2 hf2
    constructor
    · exact fun u hu => ihmono u (hmono u hu)
    · intro line hmem hsegline
      rcases List.mem_cons.mp hmem with heq | hrest
      · subst heq
        exact ihmono _ (hline hsegline)
      · exact ihline line hrest hsegline

/-- A manifest whose second `EXTINF` duration is malformed (`abc`). -/
def mixedManifest : String :=
  "#EXTINF:3.0,\nhttp://x/a.ts\n#EXTINF:abc,\nhttp://x/b.ts"

/-- C9 counterexample: the segment after the malformed `#EXTINF:abc,` line is
ingested with the previously parsed duration (3000 ms), not with the
configured nominal `segmentDuration` (2000 ms). -/
theorem processPlaylist_malformed_inherits_cex :
    ((demoTracker.processPlaylist mixedManifest id 2000).segments.map
        (fun s => (s.url, s.duration)))
      = [("http://x/a.ts", 3000), ("http://x/b.ts", 3000)] ∧
    demoTracker.segmentDuration = 2000 := by
  decide

/-- C9 (amended): ingest never aborts on a malformed line — every well-formed
media-locator line of the manifest is retained after the poll (given active
tracking and no eviction pending) — and a segment whose declared duration
failed to parse is inserted with the most recently parsed duration when one
exists (the nominal default applies only when there is none), as on the
concrete malformed manifest. -/
theorem processPlaylist_ingests_wellformed (t : DVRTracker) (content : String)
    (resolve : String → String) (now : ℚ)
    (hl : t.isLive = true) (he : t.isEnabled = true)
    (hm : 0 < t.maxBufferDuration) (hf : freshSegments now t)
    (line : List Char) (hmem : line ∈ splitOnNewline content.data)
    (hseg : isSegmentLine (jsTrim line) = true) :
    resolveSegmentUrl resolve (jsTrim line)
      ∈ ((t.processPlaylist content resolve now).segments.map Segment.url) ∧
    ((demoTracker.processPlaylist mixedManifest id 2000).segments.map
        Segment.duration) = [3000, 3000] := by
  constructor
  · have hguard : (!t.isLive || !t.isEnabled) = false := by
      rw [hl, he]; rfl
    unfold DVRTracker.processPlaylist
    rw [hguard]
    simp only [Bool.false_eq_true, if_false]
    exact (foldl_processLine_inserts resolve now (splitOnNewline content.data) _
      hl he hm hf).2 line hmem hseg
  · decide

/-- C9 witness: on the malformed manifest, the well-formed line
`http://x/b.ts` is still ingested. -/
theorem processPlaylist_ingests_wellformed_witness :
    resolveSegmentUrl id (jsTrim (("http://x/b.ts").data))
      ∈ ((demoTracker.processPlaylist mixedManifest id 2000).segments.map
          Segment.url) ∧
    ((demoTracker.processPlaylist mixedManifest id 2000).segments.map
        Segment.duration) = [3000, 3000] :=
  processPlaylist_ingests_wellformed demoTracker mixedManifest id 2000 rfl rfl
    (by decide) (by simp [freshSegments, demoTracker]) (("http://x/b.ts").data)
    (by decide) (by decide)
